import Mathlib

/-
Verification of the MicroService reconciliation controller
(kinnylee/micro-service-operator, package controllers).

The embedding below follows the fullest variant of the controller source
(the file containing the deployment, service and ingress creation paths,
`Reconcile` at lines 42-171).  Pure object construction is embedded as
Lean structure literals copied field-for-field from the Go composite
literals; the interaction with the store client (controller-runtime
`client.Client`) is embedded by passing in the outcome of each store call
as data (`StoreEnv`) and recording the sequence of issued calls as a
trace (`List StoreOp`).
-/

/-- Identity of a namespaced resource (`types.NamespacedName`):
namespace + name.  `ns` stands for the Go field `Namespace`. -/
structure NamespacedName where
  ns : String
  name : String
  deriving DecidableEq, Repr

/-- `ctrl.Request`: carries the namespaced name of the object to
reconcile.  Go promotes the fields, so `req.Name` reads
`req.namespacedName.name` here. -/
structure Request where
  namespacedName : NamespacedName
  deriving DecidableEq, Repr

/-- `ctrl.Result`: zero value is `{Requeue: false, RequeueAfter: 0}`.
`requeueAfter` is a duration in nanoseconds, embedded as `Nat`. -/
structure CtrlResult where
  requeue : Bool := false
  requeueAfter : Nat := 0
  deriving DecidableEq, Repr

/-- Modelled from the spec: the `devopsv1.MicroService` spec type lives in
the repository's `api/v1` package, which is not among the source files;
its fields are fixed by the controller's usage (`ms.Spec.Image`,
`ms.Spec.Host`, `ms.Spec.Secret`) and the spec's schema
`{image: string, host: string, secret: optional string}`. -/
structure MicroServiceSpec where
  image : String
  host : String
  secret : String
  deriving DecidableEq, Repr

/-- The declared MicroService resource as the controller reads it. -/
structure MicroService where
  spec : MicroServiceSpec
  deriving DecidableEq, Repr

/-- `metav1.OwnerReference` (external k8s API): a back-reference from a
dependent object to its owner.  The controller never constructs one. -/
structure OwnerReference where
  apiVersion : String := ""
  kind : String := ""
  name : String := ""
  deriving DecidableEq, Repr

/-- `metav1.TypeMeta`. -/
structure TypeMeta where
  kind : String := ""
  apiVersion : String := ""
  deriving DecidableEq, Repr

/-- `metav1.ObjectMeta`, restricted to the fields the controller touches
plus `ownerReferences`; every field defaults to its Go zero value, and
the controller's composite literals set only `Name` and `Namespace`. -/
structure ObjectMeta where
  name : String := ""
  ns : String := ""
  labels : List (String × String) := []
  ownerReferences : List OwnerReference := []
  deriving DecidableEq, Repr

/-- `intstr.IntOrString`. -/
inductive IntOrString where
  | int (n : Int)
  | str (s : String)
  deriving DecidableEq, Repr

/-- `corev1.ContainerPort`, restricted to the field set by the code. -/
structure ContainerPort where
  containerPort : Int
  deriving DecidableEq, Repr

/-- `corev1.LocalObjectReference`. -/
structure LocalObjectReference where
  name : String := ""
  deriving DecidableEq, Repr

/-- `corev1.Container`, restricted to the fields set by the code. -/
structure Container where
  name : String := ""
  image : String := ""
  imagePullPolicy : String := ""
  ports : List ContainerPort := []
  deriving DecidableEq, Repr

/-- `corev1.PodSpec`, restricted to the fields set by the code. -/
structure PodSpec where
  imagePullSecrets : List LocalObjectReference := []
  containers : List Container := []
  deriving DecidableEq, Repr

/-- `metav1.LabelSelector`, restricted to `MatchLabels`. -/
structure LabelSelector where
  matchLabels : List (String × String) := []
  deriving DecidableEq, Repr

/-- `corev1.PodTemplateSpec`. -/
structure PodTemplateSpec where
  metadata : ObjectMeta := {}
  spec : PodSpec := {}
  deriving DecidableEq, Repr

/-- `appv1.DeploymentSpec`, restricted to the fields set by the code. -/
structure DeploymentSpec where
  selector : LabelSelector := {}
  template : PodTemplateSpec := {}
  deriving DecidableEq, Repr

/-- `appv1.Deployment`. -/
structure Deployment where
  typeMeta : TypeMeta := {}
  metadata : ObjectMeta := {}
  spec : DeploymentSpec := {}
  deriving DecidableEq, Repr

/-- `corev1.ServicePort`, restricted to the fields set by the code. -/
structure ServicePort where
  name : String := ""
  port : Int := 0
  targetPort : IntOrString := IntOrString.int 0
  protocol : String := ""
  deriving DecidableEq, Repr

/-- `corev1.ServiceSpec`, restricted to the fields set by the code. -/
structure ServiceSpec where
  selector : List (String × String) := []
  ports : List ServicePort := []
  deriving DecidableEq, Repr

/-- `corev1.Service` (the code also names its empty `Status`, which
carries no data the controller reads or the claims mention). -/
structure Service where
  typeMeta : TypeMeta := {}
  metadata : ObjectMeta := {}
  spec : ServiceSpec := {}
  deriving DecidableEq, Repr

/-- `v1beta1.IngressBackend`. -/
structure IngressBackend where
  serviceName : String := ""
  servicePort : IntOrString := IntOrString.int 0
  deriving DecidableEq, Repr

/-- `v1beta1.HTTPIngressPath`. -/
structure HTTPIngressPath where
  path : String := ""
  backend : IngressBackend := {}
  deriving DecidableEq, Repr

/-- `v1beta1.HTTPIngressRuleValue`. -/
structure HTTPIngressRuleValue where
  paths : List HTTPIngressPath := []
  deriving DecidableEq, Repr

/-- `v1beta1.IngressRule`; `http` is a pointer in Go, hence `Option`. -/
structure IngressRule where
  host : String := ""
  http : Option HTTPIngressRuleValue := none
  deriving DecidableEq, Repr

/-- `v1beta1.IngressSpec`, restricted to the fields set by the code. -/
structure IngressSpec where
  rules : List IngressRule := []
  deriving DecidableEq, Repr

/-- `v1beta1.Ingress`. -/
structure Ingress where
  typeMeta : TypeMeta := {}
  metadata : ObjectMeta := {}
  spec : IngressSpec := {}
  deriving DecidableEq, Repr

/-- Error returned by the store client's `Get`: either a not-found
error or some other (e.g. transient network) error with a message. -/
inductive GetErr where
  | notFound
  | other (msg : String)
  deriving DecidableEq, Repr

/-- `client.IgnoreNotFound`: returns `none` (nil) when the error is a
not-found error, and the error itself otherwise. -/
def IgnoreNotFound : GetErr → Option GetErr
  | GetErr.notFound => none
  | GetErr.other m => some (GetErr.other m)

/-- A typed object handed to the store client's `Create`. -/
inductive KubeObject where
  | deployment (d : Deployment)
  | service (s : Service)
  | ingress (i : Ingress)
  deriving DecidableEq, Repr

/-- Object metadata of a created object. -/
def KubeObject.meta : KubeObject → ObjectMeta
  | KubeObject.deployment d => d.metadata
  | KubeObject.service s => s.metadata
  | KubeObject.ingress i => i.metadata

/-- One call issued against the store client.  The controller-runtime
client surface offers get/create/update/delete plus the status
subresource update; the trace records which of these `Reconcile`
actually invokes. -/
inductive StoreOp where
  | get (key : NamespacedName)
  | create (obj : KubeObject)
  | update (obj : KubeObject)
  | delete (obj : KubeObject)
  | statusUpdate (key : NamespacedName)
  deriving DecidableEq, Repr

/-- A store call is mutating when it is anything but a read. -/
def StoreOp.isMutating : StoreOp → Bool
  | StoreOp.get _ => false
  | StoreOp.create _ => true
  | StoreOp.update _ => true
  | StoreOp.delete _ => true
  | StoreOp.statusUpdate _ => true

/-- A store call writing the status subresource. -/
def StoreOp.isStatusWrite : StoreOp → Bool
  | StoreOp.statusUpdate _ => true
  | _ => false

/-- A store call that is a plain get or a create. -/
def StoreOp.isGetOrCreate : StoreOp → Bool
  | StoreOp.get _ => true
  | StoreOp.create _ => true
  | _ => false

/-- Number of mutating store calls in a trace. -/
def countMutating (trace : List StoreOp) : Nat :=
  (trace.filter StoreOp.isMutating).length

/-- The created objects of a trace, in order. -/
def createdObjects : List StoreOp → List KubeObject
  | [] => []
  | StoreOp.create o :: rest => o :: createdObjects rest
  | _ :: rest => createdObjects rest

/-- Outcomes the store hands back to one reconcile pass: the result of
`r.Get` on the MicroService, and the error (if any) of each of the
three `r.Create` calls, should it be reached. -/
structure StoreEnv where
  fetch : Except GetErr MicroService
  createDeploymentErr : Option String
  createServiceErr : Option String
  createIngressErr : Option String
  deriving Repr

/-- What one invocation of `Reconcile` returns, together with the trace
of store-client calls it issued. -/
structure ReconcileOutput where
  result : CtrlResult
  err : Option String
  trace : List StoreOp
  deriving DecidableEq, Repr

/-- The pod label map built at the top of the main path:
`map[string]string{"app": req.Name}`. -/
def podLabels (req : Request) : List (String × String) :=
  [("app", req.namespacedName.name)]

/-- The `appv1.Deployment` composite literal (source lines 62-100):
kind/apiVersion, name/namespace from the request, selector and template
labels `{app: name}`, pod spec with `ImagePullSecrets` always holding
one reference named `ms.Spec.Secret`, and one container named after the
request with image `ms.Spec.Image`, pull policy `Always` and container
port 8080. -/
def buildDeployment (req : Request) (ms : MicroService) : Deployment :=
  { typeMeta := { kind := "Deployment", apiVersion := "apps/v1" }
    metadata := { name := req.namespacedName.name, ns := req.namespacedName.ns }
    spec :=
      { selector := { matchLabels := podLabels req }
        template :=
          { metadata := { labels := podLabels req }
            spec :=
              { imagePullSecrets := [{ name := ms.spec.secret }]
                containers :=
                  [{ name := req.namespacedName.name
                     image := ms.spec.image
                     imagePullPolicy := "Always"
                     ports := [{ containerPort := 8080 }] }] } } } }

/-- The `corev1.Service` composite literal (source lines 107-128):
kind/apiVersion, name/namespace from the request, selector `{app: name}`,
one port named after the request with port 80, target port `FromInt(8080)`
and protocol TCP. -/
def buildService (req : Request) : Service :=
  { typeMeta := { kind := "Service", apiVersion := "v1" }
    metadata := { name := req.namespacedName.name, ns := req.namespacedName.ns }
    spec :=
      { selector := podLabels req
        ports :=
          [{ name := req.namespacedName.name
             port := 80
             targetPort := IntOrString.int 8080
             protocol := "TCP" }] } }

/-- The `v1beta1.Ingress` composite literal (source lines 135-165):
kind `Ingress` with apiVersion literally `"v1"`, name/namespace from the
request, a single rule on host `ms.Spec.Host` whose HTTP value has the
single path `/` backed by the service named after the request on
`FromInt(80)`. -/
def buildIngress (req : Request) (ms : MicroService) : Ingress :=
  { typeMeta := { kind := "Ingress", apiVersion := "v1" }
    metadata := { name := req.namespacedName.name, ns := req.namespacedName.ns }
    spec :=
      { rules :=
          [{ host := ms.spec.host
             http := some
               { paths :=
                   [{ path := "/"
                      backend :=
                        { serviceName := req.namespacedName.name
                          servicePort := IntOrString.int 80 } }] } }] } }

/-- `MicroServiceReconciler.Reconcile` (source lines 42-171), embedded
over a `StoreEnv` supplying the outcome of every store call.

Control flow, branch by branch:
* `r.Get` fails: `client.IgnoreNotFound(err)` is tested.  When it is
  non-nil (the error is NOT a not-found error) the then-branch returns
  `ctrl.Result{}, nil`.  When it is nil (the error IS a not-found
  error) the else-branch returns `ctrl.Result{}, err` — but `err` there
  is the inner variable shadowing the outer one, bound to the nil
  result of `IgnoreNotFound`, so the returned error is nil on this
  branch too.
* `r.Create(&deployment)` fails: returns `ctrl.Result{}, nil`.
* `r.Create(&service)` fails: returns `ctrl.Result{}, err`.
* `r.Create(&ingress)` fails: returns `ctrl.Result{}, nil`.
* Otherwise: returns `ctrl.Result{}, nil`. -/
def Reconcile (env : StoreEnv) (req : Request) : ReconcileOutput :=
  let getOp := StoreOp.get req.namespacedName
  match env.fetch with
  | Except.error e =>
      match IgnoreNotFound e with
      | some _ =>
          -- then-branch: `return ctrl.Result{}, nil`
          { result := {}, err := none, trace := [getOp] }
      | none =>
          -- else-branch: `return ctrl.Result{}, err` with the shadowed
          -- inner `err`, which is nil here
          { result := {}, err := none, trace := [getOp] }
  | Except.ok ms =>
      let deployment := buildDeployment req ms
      match env.createDeploymentErr with
      | some _ =>
          { result := {}, err := none
            trace := [getOp, StoreOp.create (KubeObject.deployment deployment)] }
      | none =>
          let service := buildService req
          match env.createServiceErr with
          | some e =>
              { result := {}, err := some e
                trace := [getOp, StoreOp.create (KubeObject.deployment deployment),
                          StoreOp.create (KubeObject.service service)] }
          | none =>
              let ingress := buildIngress req ms
              match env.createIngressErr with
              | some _ =>
                  { result := {}, err := none
                    trace := [getOp, StoreOp.create (KubeObject.deployment deployment),
                              StoreOp.create (KubeObject.service service),
                              StoreOp.create (KubeObject.ingress ingress)] }
              | none =>
                  { result := {}, err := none
                    trace := [getOp, StoreOp.create (KubeObject.deployment deployment),
                              StoreOp.create (KubeObject.service service),
                              StoreOp.create (KubeObject.ingress ingress)] }

/-- The identity of the spec's concrete scenario: `foo` in `default`. -/
def fooReq : Request := { namespacedName := { ns := "default", name := "foo" } }

/-- The declared resource of the spec's concrete scenario:
image `app:1.0`, host `foo.example.com`, empty secret. -/
def fooMs : MicroService :=
  { spec := { image := "app:1.0", host := "foo.example.com", secret := "" } }

/-- Empty actual state: the fetch finds the declared resource and all
three creations succeed. -/
def emptyStateEnv : StoreEnv :=
  { fetch := Except.ok fooMs
    createDeploymentErr := none
    createServiceErr := none
    createIngressErr := none }

/-- Converged actual state: the declared resource exists and each
dependent resource already exists, so each create the controller
attempts is rejected by the store as already existing. -/
def convergedEnv : StoreEnv :=
  { fetch := Except.ok fooMs
    createDeploymentErr := some "deployments.apps \x22foo\x22 already exists"
    createServiceErr := some "services \x22foo\x22 already exists"
    createIngressErr := some "ingresses.extensions \x22foo\x22 already exists" }

/-- Fetch fails with a not-found error. -/
def notFoundEnv : StoreEnv :=
  { fetch := Except.error GetErr.notFound
    createDeploymentErr := none
    createServiceErr := none
    createIngressErr := none }

/-- Fetch fails with a transient non-not-found error. -/
def fetchFailEnv : StoreEnv :=
  { fetch := Except.error (GetErr.other "connect: connection refused")
    createDeploymentErr := none
    createServiceErr := none
    createIngressErr := none }

/-- Deployment creation fails while the store would accept the other
two creations. -/
def depFailEnv : StoreEnv :=
  { fetch := Except.ok fooMs
    createDeploymentErr := some "deployment create failed"
    createServiceErr := none
    createIngressErr := none }

/-- Claim C1: the claim states that reconciling an already-converged
declared resource issues zero mutating store calls.  The code has no
diff engine: after a successful fetch it always calls `Create` for the
deployment, so on a converged store (every create rejected as already
existing) each pass still issues one mutating call — the deployment
create — before bailing out with a swallowed error. -/
theorem C1_converged_reconcile_issues_a_mutating_call :
    countMutating (Reconcile convergedEnv fooReq).trace = 1 ∧
    (Reconcile convergedEnv fooReq).trace =
      [StoreOp.get fooReq.namespacedName,
       StoreOp.create (KubeObject.deployment (buildDeployment fooReq fooMs))] := by
  constructor <;> rfl

/-- Claim C2: the claim states that no dependent-resource creation
failure is suppressed while reporting success, and that all three
creations are attempted.  In the code a deployment creation failure
returns `ctrl.Result{}, nil` (success) and the service and ingress
creations are never attempted. -/
theorem C2_deployment_create_failure_suppressed :
    (Reconcile depFailEnv fooReq).err = none ∧
    (Reconcile depFailEnv fooReq).trace =
      [StoreOp.get fooReq.namespacedName,
       StoreOp.create (KubeObject.deployment (buildDeployment fooReq fooMs))] := by
  constructor <;> rfl

/-- Claim C3: on the spec `{name: foo, namespace: default, image: app:1.0,
host: foo.example.com}` with empty actual state, one reconcile pass
creates exactly a Deployment, a Service and an Ingress named `foo`, the
Deployment with one container of image `app:1.0`, container port 8080
and always-pull policy, the Service with port 80, target port 8080,
protocol TCP and selector `{app: foo}`, and the Ingress with host
`foo.example.com`, path `/` and backend service `foo` on port 80. -/
theorem C3_concrete_scenario :
    (Reconcile emptyStateEnv fooReq).trace =
      [StoreOp.get { ns := "default", name := "foo" },
       StoreOp.create (KubeObject.deployment (buildDeployment fooReq fooMs)),
       StoreOp.create (KubeObject.service (buildService fooReq)),
       StoreOp.create (KubeObject.ingress (buildIngress fooReq fooMs))] ∧
    (buildDeployment fooReq fooMs).metadata.name = "foo" ∧
    (buildDeployment fooReq fooMs).spec.template.spec.containers =
      [{ name := "foo", image := "app:1.0", imagePullPolicy := "Always",
         ports := [{ containerPort := 8080 }] }] ∧
    (buildService fooReq).metadata.name = "foo" ∧
    (buildService fooReq).spec.ports =
      [{ name := "foo", port := 80, targetPort := IntOrString.int 8080,
         protocol := "TCP" }] ∧
    (buildService fooReq).spec.selector = [("app", "foo")] ∧
    (buildIngress fooReq fooMs).metadata.name = "foo" ∧
    (buildIngress fooReq fooMs).spec.rules =
      [{ host := "foo.example.com",
         http := some { paths := [{ path := "/",
                                    backend := { serviceName := "foo",
                                                 servicePort := IntOrString.int 80 } }] } }] := by
  refine ⟨rfl, rfl, rfl, rfl, rfl, rfl, rfl, rfl⟩

/-- Claim C4, counterexample: the claim states that when the spec's
secret is empty, the built Deployment's pod spec carries no pull-secret
reference.  `fooMs` has an empty secret, yet the code unconditionally
sets `ImagePullSecrets` to a one-element list. -/
theorem C4_counterexample_empty_secret_still_referenced :
    fooMs.spec.secret = "" ∧
    (buildDeployment fooReq fooMs).spec.template.spec.imagePullSecrets ≠ [] := by
  exact ⟨rfl, by decide⟩

/-- Claim C4, amended: for every request and spec the built Deployment
carries exactly one pull-secret reference whose name is `spec.secret`,
whether or not the secret is empty. -/
theorem C4_pull_secret_always_one_reference (req : Request) (ms : MicroService) :
    (buildDeployment req ms).spec.template.spec.imagePullSecrets =
      [{ name := ms.spec.secret }] := rfl

/-- Claim C5: when the fetch of the declared resource reports not-found,
`Reconcile` returns the zero result with a nil error and issues no
mutating store call. -/
theorem C5_notfound_terminal_success (env : StoreEnv) (req : Request)
    (h : env.fetch = Except.error GetErr.notFound) :
    (Reconcile env req).result = {} ∧ (Reconcile env req).err = none ∧
    countMutating (Reconcile env req).trace = 0 := by
  unfold Reconcile
  rw [h]
  exact ⟨rfl, rfl, rfl⟩

/-- Witness for C5 at the concrete not-found environment. -/
theorem C5_witness :
    notFoundEnv.fetch = Except.error GetErr.notFound ∧
    ((Reconcile notFoundEnv fooReq).result = {} ∧
     (Reconcile notFoundEnv fooReq).err = none ∧
     countMutating (Reconcile notFoundEnv fooReq).trace = 0) :=
  ⟨rfl, C5_notfound_terminal_success notFoundEnv fooReq rfl⟩

/-- Claim C6: the claim states that a transient (non-not-found) fetch
failure yields a retry outcome.  Because the inner `err` shadows the
outer one in the fetch error handling, the code returns the zero result
and a nil error — success, no requeue — on such a failure. -/
theorem C6_transient_fetch_failure_returns_success :
    (Reconcile fetchFailEnv fooReq).err = none ∧
    (Reconcile fetchFailEnv fooReq).result.requeue = false ∧
    (Reconcile fetchFailEnv fooReq).result.requeueAfter = 0 :=
  ⟨rfl, rfl, rfl⟩

/-- Claim C7: the claim states that a successful pass writes an
observed-generation and Ready status back to the declared resource.
The code contains no status write at all: on every path, for every
store environment, the trace holds no status-subresource update. -/
theorem C7_no_status_write_on_any_path (env : StoreEnv) (req : Request) :
    ((Reconcile env req).trace.all fun op => ! op.isStatusWrite) = true := by
  obtain ⟨f, d, s, i⟩ := env
  cases f with
  | error e => cases e <;> rfl
  | ok ms => cases d <;> cases s <;> cases i <;> rfl

/-- Claim C8: the claim states that every created dependent resource
carries an owner link to its declared resource.  The code sets only
name and namespace in each object's metadata, so every built object —
and every object created in the concrete empty-state pass — has an
empty owner-reference list. -/
theorem C8_created_dependents_carry_no_owner_reference
    (req : Request) (ms : MicroService) :
    (buildDeployment req ms).metadata.ownerReferences = [] ∧
    (buildService req).metadata.ownerReferences = [] ∧
    (buildIngress req ms).metadata.ownerReferences = [] ∧
    (createdObjects (Reconcile emptyStateEnv fooReq).trace).map
      (fun o => o.meta.ownerReferences) = [[], [], []] :=
  ⟨rfl, rfl, rfl, rfl⟩

/-- Claim C9: on every path and store environment, every store call
issued by `Reconcile` is a get or a create — never an update, delete or
status write — so existing objects are left unmodified. -/
theorem C9_only_get_and_create_ops (env : StoreEnv) (req : Request) :
    ((Reconcile env req).trace.all StoreOp.isGetOrCreate) = true := by
  obtain ⟨f, d, s, i⟩ := env
  cases f with
  | error e => cases e <;> rfl
  | ok ms => cases d <;> cases s <;> cases i <;> rfl

/-- Claim C10: every return path of `Reconcile` yields the zero-valued
result, and the returned error is non-nil exactly on the service
creation failure path: it equals the service create error when the
fetch succeeded and the deployment create succeeded, and is nil in
every other case. -/
theorem C10_zero_result_error_only_from_service_create
    (env : StoreEnv) (req : Request) :
    (Reconcile env req).result = {} ∧
    (Reconcile env req).err =
      (match env.fetch, env.createDeploymentErr with
       | Except.ok _, none => env.createServiceErr
       | _, _ => none) := by
  obtain ⟨f, d, s, i⟩ := env
  cases f with
  | error e => cases e <;> exact ⟨rfl, rfl⟩
  | ok ms => cases d <;> cases s <;> cases i <;> exact ⟨rfl, rfl⟩
